import Mathlib

/-!
Shallow embedding of `src/lttng-context-callstack.c` (LTTng callstack
event context registration) together with a model, taken from the spec,
of the generic context-registry operations this file calls into
(`lttng_find_context`, `lttng_append_context_index`,
`lttng_get_context_field_from_index`, `lttng_remove_context_field_index`)
and of the build-selected backend helpers
(`lttng_cs_ctx_mode_name`, `lttng_cs_ctx_mode_length_name`, `init_type`),
which live in repository files outside of `src/`.

Kernel allocation (`kzalloc`, `alloc_percpu`, `kfree`, `free_percpu`) is
modelled by an explicit heap of allocation identities together with an
oracle saying which allocation attempts succeed, so that rollback,
double-free and leak properties are expressible.
-/

/-- Error numbers used by the C code (`-EINVAL`, `-EEXIST`, `-ENOMEM`). -/
def EINVAL : Int := 22

/-- Error number for an already existing context field. -/
def EEXIST : Int := 17

/-- Error number for an allocation failure. -/
def ENOMEM : Int := 12

/-- The capture modes, `enum lttng_cs_ctx_modes` from the backend headers. -/
inductive LttngCsCtxModes where
  | CALLSTACK_KERNEL
  | CALLSTACK_USER
deriving DecidableEq, Repr

/-- Modelled from the spec: the backend helper `lttng_cs_ctx_mode_name`
(declared in the implementation headers, outside `src/`) generates the
context-field name for a mode: "callstack_kernel" / "callstack_user". -/
def lttng_cs_ctx_mode_name : LttngCsCtxModes → String
  | .CALLSTACK_KERNEL => "callstack_kernel"
  | .CALLSTACK_USER => "callstack_user"

/-- Modelled from the spec: the backend helper `lttng_cs_ctx_mode_length_name`
generates the paired length-field name:
"callstack_kernel_length" / "callstack_user_length". -/
def lttng_cs_ctx_mode_length_name : LttngCsCtxModes → String
  | .CALLSTACK_KERNEL => "callstack_kernel_length"
  | .CALLSTACK_USER => "callstack_user_length"

/-- Modelled from the spec: the backend helper `init_type` (implementation
headers, outside `src/`) prepares the capture backend for a mode; the spec
lists no failure condition for it on a supported mode, so it returns 0. -/
def init_type (_mode : LttngCsCtxModes) : Int := 0

/-- String encodings of integer fields, `enum lttng_string_encodings`. -/
inductive LttngStringEncodings where
  | lttng_encode_none
  | lttng_encode_UTF8
  | lttng_encode_ASCII
deriving DecidableEq, Repr

/-- The `integer` arm of `union` inside `struct lttng_type`. -/
structure LttngIntegerType where
  size : Nat
  alignment : Nat
  signedness : Bool
  reverse_byte_order : Bool
  base : Nat
  encoding : LttngStringEncodings
deriving DecidableEq, Repr

/-- `struct lttng_type`: the tag `atype` together with the union arm in use.
Only the arms this file uses are modelled. -/
inductive LttngType where
  | atype_none
  | atype_integer (u : LttngIntegerType)
  | atype_sequence_nestable (length_name : String) (elem_type : LttngType)
      (alignment : Nat)
deriving DecidableEq, Repr

/-- Widths and alignments the C code takes from the platform:
`sizeof`/`lttng_alignof` of `unsigned int` and `unsigned long`, and
`CHAR_BIT`. -/
structure Platform where
  char_bit : Nat
  sizeof_unsigned_int : Nat
  alignof_unsigned_int : Nat
  sizeof_unsigned_long : Nat
  alignof_unsigned_long : Nat
deriving DecidableEq, Repr

/-- A concrete platform (LP64): `CHAR_BIT = 8`, 4-byte `unsigned int`,
8-byte `unsigned long`. Used only by witnesses. -/
def lp64 : Platform :=
  { char_bit := 8, sizeof_unsigned_int := 4, alignof_unsigned_int := 4,
    sizeof_unsigned_long := 8, alignof_unsigned_long := 8 }

/-- `static const struct lttng_type sequence_elem_type =
__type_integer(unsigned long, 0, 0, -1, __BYTE_ORDER, 16, none);`
The macro defaults size and alignment to those of `unsigned long`,
signedness to `lttng_is_signed_type(unsigned long)` (false), and the
matching byte order gives `reverse_byte_order = 0`. -/
def sequence_elem_type (p : Platform) : LttngType :=
  .atype_integer
    { size := p.sizeof_unsigned_long * p.char_bit,
      alignment := p.alignof_unsigned_long * p.char_bit,
      signedness := false,
      reverse_byte_order := false,
      base := 16,
      encoding := .lttng_encode_none }

/-- Heap of allocation identities: `nextId` is the next fresh identity,
`live` the currently allocated identities, `freeLog` the identities passed
to a free primitive, in order (an identity appearing twice in `freeLog`
is a double free). -/
structure Heap where
  nextId : Nat
  live : List Nat
  freeLog : List Nat
deriving DecidableEq, Repr

/-- Allocate a fresh identity. -/
def Heap.alloc (h : Heap) : Nat × Heap :=
  (h.nextId,
   { nextId := h.nextId + 1, live := h.nextId :: h.live, freeLog := h.freeLog })

/-- Free an identity: it stops being live and the free is logged. -/
def Heap.free (h : Heap) (id : Nat) : Heap :=
  { nextId := h.nextId, live := h.live.filter (fun x => x ≠ id),
    freeLog := h.freeLog ++ [id] }

/-- An empty heap, used by witnesses. -/
def emptyHeap : Heap := { nextId := 0, live := [], freeLog := [] }

/-- `struct field_data`: identity of the `kzalloc` allocation, the
identity of the per-CPU buffer pool (`cs_percpu`, `none` while still the
zero-initialized NULL), and the capture mode. -/
structure field_data where
  id : Nat
  cs_percpu : Option Nat
  mode : LttngCsCtxModes
deriving DecidableEq, Repr

/-- `free_percpu` is a no-op on NULL, otherwise frees the pool. -/
def free_percpu (o : Option Nat) (h : Heap) : Heap :=
  match o with
  | none => h
  | some id => h.free id

/-- `field_data_free`: returns immediately on NULL, otherwise frees the
per-CPU pool then the `field_data` itself. -/
def field_data_free (fdata : Option field_data) (h : Heap) : Heap :=
  match fdata with
  | none => h
  | some fd => (free_percpu fd.cs_percpu h).free fd.id

/-- `field_data_create`: `kzalloc` the `field_data` (zero-initialized, so
`cs_percpu` starts as NULL and `mode` as the zero value), then
`alloc_percpu` the pool; on pool-allocation failure the partially
constructed `field_data` is released through `field_data_free` and NULL is
returned. The two `Bool` arguments are the oracle for the two allocation
attempts. -/
def field_data_create (mode : LttngCsCtxModes) (kzalloc_ok alloc_percpu_ok : Bool)
    (h : Heap) : Option field_data × Heap :=
  if kzalloc_ok then
    let fid := (h.alloc).1
    let h1 := (h.alloc).2
    let fdata0 : field_data :=
      { id := fid, cs_percpu := none, mode := .CALLSTACK_KERNEL }
    if alloc_percpu_ok then
      let cid := (h1.alloc).1
      let h2 := (h1.alloc).2
      (some { id := fid, cs_percpu := some cid, mode := mode }, h2)
    else
      (none, field_data_free (some fdata0) h1)
  else
    (none, h)

/-- The size callback stored in a context field (`get_size_arg`); the
zero-initialized field carries NULL. -/
inductive GetSizeCb where
  | null
  | lttng_callstack_length_get_size
  | lttng_callstack_sequence_get_size
deriving DecidableEq, Repr

/-- The record callback stored in a context field. -/
inductive RecordCb where
  | null
  | lttng_callstack_length_record
  | lttng_callstack_sequence_record
deriving DecidableEq, Repr

/-- The (only) teardown callback this file installs. -/
inductive DestroyCb where
  | lttng_callstack_sequence_destroy_cb
deriving DecidableEq, Repr

/-- `struct lttng_ctx_field`: the embedded `event_field` (name and type)
plus the callback pointers and the private-data pointer. -/
structure lttng_ctx_field where
  name : String
  ftype : LttngType
  get_size_arg : GetSizeCb
  record : RecordCb
  priv : Option field_data
  destroy : Option DestroyCb
deriving DecidableEq, Repr

/-- A freshly appended, zero-initialized context field slot. -/
def blank_ctx_field : lttng_ctx_field :=
  { name := "", ftype := .atype_none, get_size_arg := .null, record := .null,
    priv := none, destroy := none }

/-- `struct lttng_ctx`: the ordered table of context fields. -/
structure lttng_ctx where
  fields : List lttng_ctx_field
deriving DecidableEq, Repr

/-- Modelled from the spec: the ContextRegistry operation
`find(name) -> bool` (`lttng_find_context`, defined outside `src/`)
reports whether a field with the given name is registered. -/
def lttng_find_context (ctx : lttng_ctx) (name : String) : Bool :=
  ctx.fields.any (fun f => f.name == name)

/-- Modelled from the spec: the ContextRegistry operation
`append_field() -> index` (`lttng_append_context_index`, outside `src/`)
reserves a zero-initialized field slot and returns its index, or fails
(allocation oracle `ok`) leaving the context unchanged. -/
def lttng_append_context_index (ctx : lttng_ctx) (ok : Bool) :
    Option Nat × lttng_ctx :=
  if ok then
    (some ctx.fields.length, { fields := ctx.fields ++ [blank_ctx_field] })
  else
    (none, ctx)

/-- Modelled from the spec: the ContextRegistry operation
`get_field(index)` (`lttng_get_context_field_from_index`, outside `src/`). -/
def lttng_get_context_field_from_index (ctx : lttng_ctx) (i : Nat) :
    Option lttng_ctx_field :=
  ctx.fields[i]?

/-- Modelled from the spec: the ContextRegistry operation
`remove_field(index)` (`lttng_remove_context_field_index`, outside `src/`)
removes the field slot at the given index. -/
def lttng_remove_context_field_index (ctx : lttng_ctx) (i : Nat) : lttng_ctx :=
  { fields := ctx.fields.eraseIdx i }

/-- `lttng_callstack_sequence_destroy`: the sequence field's teardown
callback releases the shared `field_data` held in `field->priv`. -/
def lttng_callstack_sequence_destroy (field : lttng_ctx_field) (h : Heap) :
    Heap :=
  field_data_free field.priv h

/-- Modelled from the spec: at context teardown the registry invokes each
field's teardown callback when one is installed. -/
def run_field_destroy (h : Heap) (f : lttng_ctx_field) : Heap :=
  match f.destroy with
  | some .lttng_callstack_sequence_destroy_cb =>
      lttng_callstack_sequence_destroy f h
  | none => h

/-- Which allocation attempts of one registration succeed: the two field
slot reservations, then `kzalloc` and `alloc_percpu` inside
`field_data_create`. -/
structure AllocOracle where
  append_length_ok : Bool
  append_sequence_ok : Bool
  kzalloc_ok : Bool
  alloc_percpu_ok : Bool
deriving DecidableEq, Repr

/-- The oracle on which every allocation succeeds. -/
def allOk : AllocOracle :=
  { append_length_ok := true, append_sequence_ok := true,
    kzalloc_ok := true, alloc_percpu_ok := true }

/-- Result of a registration attempt: the returned error code, the context
and the heap after the attempt. -/
structure RegResult where
  ret : Int
  ctx : lttng_ctx
  heap : Heap
deriving DecidableEq, Repr

/-- The populated length field (lines 138-149 of the C file). -/
def make_length_field (p : Platform) (mode : LttngCsCtxModes)
    (fdata : field_data) : lttng_ctx_field :=
  { name := lttng_cs_ctx_mode_length_name mode,
    ftype := .atype_integer
      { size := p.sizeof_unsigned_int * p.char_bit,
        alignment := p.alignof_unsigned_int * p.char_bit,
        signedness := false,
        reverse_byte_order := false,
        base := 10,
        encoding := .lttng_encode_none },
    get_size_arg := .lttng_callstack_length_get_size,
    record := .lttng_callstack_length_record,
    priv := some fdata,
    destroy := none }

/-- The populated sequence field (lines 151-160 of the C file). -/
def make_sequence_field (p : Platform) (mode : LttngCsCtxModes)
    (fdata : field_data) : lttng_ctx_field :=
  { name := lttng_cs_ctx_mode_name mode,
    ftype := .atype_sequence_nestable (lttng_cs_ctx_mode_length_name mode)
      (sequence_elem_type p) 0,
    get_size_arg := .lttng_callstack_sequence_get_size,
    record := .lttng_callstack_sequence_record,
    priv := some fdata,
    destroy := some .lttng_callstack_sequence_destroy_cb }

/-- `__lttng_add_callstack_generic`: validate, duplicate-check, reserve the
length slot then the sequence slot, create the shared `field_data`,
populate both fields; on failure unwind exactly what was done
(`error_create` removes the sequence slot then falls through to
`error_sequence` which removes the length slot). -/
def __lttng_add_callstack_generic (p : Platform) (ctx : lttng_ctx)
    (mode : LttngCsCtxModes) (o : AllocOracle) (h : Heap) : RegResult :=
  let ctx_name := lttng_cs_ctx_mode_name mode
  if init_type mode ≠ 0 then
    { ret := init_type mode, ctx := ctx, heap := h }
  else if lttng_find_context ctx ctx_name then
    { ret := -EEXIST, ctx := ctx, heap := h }
  else
    match lttng_append_context_index ctx o.append_length_ok with
    | (none, ctx1) => { ret := -ENOMEM, ctx := ctx1, heap := h }
    | (some length_index, ctx1) =>
      match lttng_append_context_index ctx1 o.append_sequence_ok with
      | (none, ctx2) =>
        { ret := -ENOMEM,
          ctx := lttng_remove_context_field_index ctx2 length_index,
          heap := h }
      | (some sequence_index, ctx2) =>
        match field_data_create mode o.kzalloc_ok o.alloc_percpu_ok h with
        | (none, h1) =>
          let ctx3 := lttng_remove_context_field_index ctx2 sequence_index
          let ctx4 := lttng_remove_context_field_index ctx3 length_index
          { ret := -ENOMEM, ctx := ctx4, heap := h1 }
        | (some fdata, h1) =>
          let ctx3 : lttng_ctx :=
            { fields :=
                (ctx2.fields.set length_index (make_length_field p mode fdata)).set
                  sequence_index (make_sequence_field p mode fdata) }
          { ret := 0, ctx := ctx3, heap := h1 }

/-- The `int type` selector of `lttng_add_callstack_to_ctx`: the two named
`enum lttng_kernel_context_type` values this file recognizes, or any other
integer value. -/
inductive ContextTypeSel where
  | LTTNG_KERNEL_CONTEXT_CALLSTACK_KERNEL
  | LTTNG_KERNEL_CONTEXT_CALLSTACK_USER
  | other (n : Int)
deriving DecidableEq, Repr

/-- `lttng_add_callstack_to_ctx`: dispatch on the selector. The
`CALLSTACK_USER` case is compiled only under `CONFIG_X86`
(parameter `config_x86`); without it that selector reaches the
`default:` arm like any unknown value. -/
def lttng_add_callstack_to_ctx (p : Platform) (config_x86 : Bool)
    (ctx : lttng_ctx) (ty : ContextTypeSel) (o : AllocOracle) (h : Heap) :
    RegResult :=
  match ty with
  | .LTTNG_KERNEL_CONTEXT_CALLSTACK_KERNEL =>
      __lttng_add_callstack_generic p ctx .CALLSTACK_KERNEL o h
  | .LTTNG_KERNEL_CONTEXT_CALLSTACK_USER =>
      if config_x86 then
        __lttng_add_callstack_generic p ctx .CALLSTACK_USER o h
      else
        { ret := -EINVAL, ctx := ctx, heap := h }
  | .other _ => { ret := -EINVAL, ctx := ctx, heap := h }

/-! ## List helper lemmas -/

theorem eraseIdx_append_self {α : Type} (xs : List α) (b : α) :
    (xs ++ [b]).eraseIdx xs.length = xs := by
  induction xs with
  | nil => rfl
  | cons x xs ih => simpa using ih

theorem eraseIdx_append_self1 {α : Type} (xs : List α) (b c : α) :
    (xs ++ [b, c]).eraseIdx (xs.length + 1) = xs ++ [b] := by
  induction xs with
  | nil => rfl
  | cons x xs ih => simpa using ih

theorem set_append_self {α : Type} (xs : List α) (b c v : α) :
    (xs ++ [b, c]).set xs.length v = xs ++ [v, c] := by
  induction xs with
  | nil => rfl
  | cons x xs ih => simp [ih]

theorem set_append_self1 {α : Type} (xs : List α) (b c v : α) :
    (xs ++ [b, c]).set (xs.length + 1) v = xs ++ [b, v] := by
  induction xs with
  | nil => rfl
  | cons x xs ih => simp [ih]

theorem getElem?_append_self {α : Type} (xs : List α) (b c : α) :
    (xs ++ [b, c])[xs.length]? = some b := by
  induction xs with
  | nil => rfl
  | cons x xs ih => simpa using ih

theorem getElem?_append_self1 {α : Type} (xs : List α) (b c : α) :
    (xs ++ [b, c])[xs.length + 1]? = some c := by
  induction xs with
  | nil => rfl
  | cons x xs ih => simpa using ih

/-! ## Master lemmas about `__lttng_add_callstack_generic` -/

/-- The `field_data` produced by a successful `field_data_create` on heap
`h`: the `kzalloc` identity is `h.nextId`, the pool identity the next one. -/
def created_fdata (mode : LttngCsCtxModes) (h : Heap) : field_data :=
  { id := h.nextId, cs_percpu := some (h.nextId + 1), mode := mode }

/-- The heap after the two successful allocations of `field_data_create`. -/
def success_heap (h : Heap) : Heap :=
  { nextId := h.nextId + 2, live := (h.nextId + 1) :: h.nextId :: h.live,
    freeLog := h.freeLog }

theorem generic_success_eq (p : Platform) (ctx : lttng_ctx)
    (mode : LttngCsCtxModes) (h : Heap)
    (hf : lttng_find_context ctx (lttng_cs_ctx_mode_name mode) = false) :
    __lttng_add_callstack_generic p ctx mode allOk h =
      { ret := 0,
        ctx := ⟨ctx.fields ++
          [make_length_field p mode (created_fdata mode h),
           make_sequence_field p mode (created_fdata mode h)]⟩,
        heap := success_heap h } := by
  obtain ⟨fs⟩ := ctx
  simp only [__lttng_add_callstack_generic, init_type, allOk, hf,
    lttng_append_context_index, field_data_create, Heap.alloc,
    created_fdata, success_heap, if_true, ite_true, ne_eq,
    not_true_eq_false, if_false, Bool.false_eq_true, ite_false,
    List.length_append, List.length_cons, List.length_nil]
  simp [List.append_assoc, set_append_self, set_append_self1,
    created_fdata, success_heap]

theorem generic_ret_zero (p : Platform) (ctx : lttng_ctx)
    (mode : LttngCsCtxModes) (o : AllocOracle) (h : Heap)
    (hs : (__lttng_add_callstack_generic p ctx mode o h).ret = 0) :
    o = allOk ∧
    lttng_find_context ctx (lttng_cs_ctx_mode_name mode) = false := by
  obtain ⟨a1, a2, kz, pc⟩ := o
  by_cases hf : lttng_find_context ctx (lttng_cs_ctx_mode_name mode) = true
  · simp [__lttng_add_callstack_generic, init_type, hf, EEXIST] at hs
  · simp only [Bool.not_eq_true] at hf
    cases a1 <;> cases a2 <;> cases kz <;> cases pc <;>
      simp_all [__lttng_add_callstack_generic, init_type,
        lttng_append_context_index, field_data_create, allOk,
        EEXIST, ENOMEM]

theorem generic_error_ctx (p : Platform) (ctx : lttng_ctx)
    (mode : LttngCsCtxModes) (o : AllocOracle) (h : Heap)
    (herr : (__lttng_add_callstack_generic p ctx mode o h).ret ≠ 0) :
    (__lttng_add_callstack_generic p ctx mode o h).ctx = ctx := by
  obtain ⟨fs⟩ := ctx
  obtain ⟨a1, a2, kz, pc⟩ := o
  by_cases hf : lttng_find_context ⟨fs⟩ (lttng_cs_ctx_mode_name mode) = true
  · simp [__lttng_add_callstack_generic, init_type, hf]
  · simp only [Bool.not_eq_true] at hf
    cases a1 <;> cases a2 <;> cases kz <;> cases pc <;>
      simp_all [__lttng_add_callstack_generic, init_type,
        lttng_append_context_index, field_data_create,
        lttng_remove_context_field_index, eraseIdx_append_self,
        eraseIdx_append_self1, List.append_assoc]

/-! ## Claims -/

/-- C1: on every error return of `__lttng_add_callstack_generic` — second
slot reservation failed (the first is rolled back), or `field_data_create`
failed (both reservations are rolled back), or any other failure — the
target context is unchanged from before the attempt, so its field count is
unchanged and no partially registered field pair is observable. -/
theorem C1_error_rollback (p : Platform) (ctx : lttng_ctx)
    (mode : LttngCsCtxModes) (o : AllocOracle) (h : Heap)
    (herr : (__lttng_add_callstack_generic p ctx mode o h).ret ≠ 0) :
    (__lttng_add_callstack_generic p ctx mode o h).ctx = ctx ∧
    (__lttng_add_callstack_generic p ctx mode o h).ctx.fields.length =
      ctx.fields.length := by
  have hc := generic_error_ctx p ctx mode o h herr
  exact ⟨hc, by rw [hc]⟩

/-- C1 witness: a concrete attempt in which reserving the sequence slot
fails; the context comes back unchanged. -/
theorem C1_error_rollback_witness :
    (__lttng_add_callstack_generic lp64 ⟨[]⟩ .CALLSTACK_KERNEL
        ⟨true, false, true, true⟩ emptyHeap).ctx = ⟨[]⟩ ∧
    (__lttng_add_callstack_generic lp64 ⟨[]⟩ .CALLSTACK_KERNEL
        ⟨true, false, true, true⟩ emptyHeap).ctx.fields.length =
      (⟨[]⟩ : lttng_ctx).fields.length :=
  C1_error_rollback lp64 ⟨[]⟩ .CALLSTACK_KERNEL
    ⟨true, false, true, true⟩ emptyHeap (by decide)

/-- C2: `lttng_add_callstack_to_ctx` recognizes exactly the two selectors
`LTTNG_KERNEL_CONTEXT_CALLSTACK_KERNEL` and
`LTTNG_KERNEL_CONTEXT_CALLSTACK_USER`: every other selector value fails
immediately with `-EINVAL` leaving context and heap untouched, while the
kernel selector dispatches to the generic registration in kernel mode and
the user selector (on a build with user-stack support) dispatches to it in
user mode. -/
theorem C2_selector_surface (p : Platform) (cfg : Bool) (ctx : lttng_ctx)
    (n : Int) (o : AllocOracle) (h : Heap) :
    lttng_add_callstack_to_ctx p cfg ctx (.other n) o h =
      { ret := -EINVAL, ctx := ctx, heap := h } ∧
    lttng_add_callstack_to_ctx p cfg ctx
        .LTTNG_KERNEL_CONTEXT_CALLSTACK_KERNEL o h =
      __lttng_add_callstack_generic p ctx .CALLSTACK_KERNEL o h ∧
    lttng_add_callstack_to_ctx p true ctx
        .LTTNG_KERNEL_CONTEXT_CALLSTACK_USER o h =
      __lttng_add_callstack_generic p ctx .CALLSTACK_USER o h := by
  refine ⟨rfl, rfl, ?_⟩
  simp [lttng_add_callstack_to_ctx]

/-- C3 counterexample: on a build without `CONFIG_X86`, requesting the user
callstack returns exactly the same `-EINVAL` as an unknown selector — the
code has no unsupported-mode error distinct from the invalid-argument
error. -/
theorem C3_counterexample :
    (lttng_add_callstack_to_ctx lp64 false ⟨[]⟩
        .LTTNG_KERNEL_CONTEXT_CALLSTACK_USER allOk emptyHeap).ret =
      (lttng_add_callstack_to_ctx lp64 false ⟨[]⟩ (.other 999) allOk
        emptyHeap).ret ∧
    (lttng_add_callstack_to_ctx lp64 false ⟨[]⟩
        .LTTNG_KERNEL_CONTEXT_CALLSTACK_USER allOk emptyHeap).ret =
      -EINVAL := by
  exact ⟨rfl, rfl⟩

/-- C3 (amended): on a build without user-stack support the user-callstack
selector falls into the `default:` arm, so registration fails with the
same invalid-argument error `-EINVAL` as an unknown selector, and neither
the context nor the heap is mutated. -/
theorem C3_user_unsupported (p : Platform) (ctx : lttng_ctx)
    (o : AllocOracle) (h : Heap) (n : Int) :
    lttng_add_callstack_to_ctx p false ctx
        .LTTNG_KERNEL_CONTEXT_CALLSTACK_USER o h =
      { ret := -EINVAL, ctx := ctx, heap := h } ∧
    (lttng_add_callstack_to_ctx p false ctx
        .LTTNG_KERNEL_CONTEXT_CALLSTACK_USER o h).ret =
      (lttng_add_callstack_to_ctx p false ctx (.other n) o h).ret := by
  exact ⟨rfl, rfl⟩

/-- C4: for every supported mode, after a successful registration a second
registration attempt with the same mode fails with `-EEXIST`, returned
before any mutation: the context and the heap produced by the first
registration come back from the second attempt completely unchanged, so
the first registration's fields remain intact. -/
theorem C4_register_twice (p : Platform) (ctx : lttng_ctx)
    (mode : LttngCsCtxModes) (o1 o2 : AllocOracle) (h : Heap)
    (hs : (__lttng_add_callstack_generic p ctx mode o1 h).ret = 0) :
    __lttng_add_callstack_generic p
        (__lttng_add_callstack_generic p ctx mode o1 h).ctx mode o2
        (__lttng_add_callstack_generic p ctx mode o1 h).heap =
      { ret := -EEXIST,
        ctx := (__lttng_add_callstack_generic p ctx mode o1 h).ctx,
        heap := (__lttng_add_callstack_generic p ctx mode o1 h).heap } := by
  obtain ⟨ho, hf⟩ := generic_ret_zero p ctx mode o1 h hs
  subst ho
  rw [generic_success_eq p ctx mode h hf]
  have hfind : lttng_find_context
      ⟨ctx.fields ++ [make_length_field p mode (created_fdata mode h),
        make_sequence_field p mode (created_fdata mode h)]⟩
      (lttng_cs_ctx_mode_name mode) = true := by
    simp [lttng_find_context, make_sequence_field]
  simp [__lttng_add_callstack_generic, init_type, hfind]

/-- C4 witness: registering the kernel callstack twice on an initially
empty context fails the second time with `-EEXIST` and changes nothing. -/
theorem C4_register_twice_witness :
    __lttng_add_callstack_generic lp64
        (__lttng_add_callstack_generic lp64 ⟨[]⟩ .CALLSTACK_KERNEL allOk
          emptyHeap).ctx .CALLSTACK_KERNEL allOk
        (__lttng_add_callstack_generic lp64 ⟨[]⟩ .CALLSTACK_KERNEL allOk
          emptyHeap).heap =
      { ret := -EEXIST,
        ctx := (__lttng_add_callstack_generic lp64 ⟨[]⟩ .CALLSTACK_KERNEL
          allOk emptyHeap).ctx,
        heap := (__lttng_add_callstack_generic lp64 ⟨[]⟩ .CALLSTACK_KERNEL
          allOk emptyHeap).heap } :=
  C4_register_twice lp64 ⟨[]⟩ .CALLSTACK_KERNEL allOk allOk emptyHeap
    (by decide)

/-- C5 counterexample: a context that already holds a field named with the
kernel mode's length-field name "callstack_kernel_length" — the name the
claim says the duplicate check tests — is nevertheless accepted: the
registration returns 0, not `-EEXIST`, because the code checks
`ctx_name` ("callstack_kernel"), not `ctx_length_name`. -/
theorem C5_counterexample :
    lttng_find_context
        ⟨[{ blank_ctx_field with name := "callstack_kernel_length" }]⟩
        (lttng_cs_ctx_mode_length_name .CALLSTACK_KERNEL) = true ∧
    (__lttng_add_callstack_generic lp64
        ⟨[{ blank_ctx_field with name := "callstack_kernel_length" }]⟩
        .CALLSTACK_KERNEL allOk emptyHeap).ret = 0 := by
  constructor
  · decide
  · decide

/-- C5 (amended): the duplicate-registration check of
`__lttng_add_callstack_generic` tests whether a field named with the
mode's context name (e.g. "callstack_kernel" — the sequence field's name,
not the length-field name) already exists on the target context, and the
attempt fails with `-EEXIST` exactly when that name is found. -/
theorem C5_duplicate_check (p : Platform) (ctx : lttng_ctx)
    (mode : LttngCsCtxModes) (o : AllocOracle) (h : Heap) :
    (__lttng_add_callstack_generic p ctx mode o h).ret = -EEXIST ↔
      lttng_find_context ctx (lttng_cs_ctx_mode_name mode) = true := by
  obtain ⟨a1, a2, kz, pc⟩ := o
  by_cases hf : lttng_find_context ctx (lttng_cs_ctx_mode_name mode) = true
  · simp [__lttng_add_callstack_generic, init_type, hf]
  · simp only [Bool.not_eq_true] at hf
    cases a1 <;> cases a2 <;> cases kz <;> cases pc <;>
      simp_all [__lttng_add_callstack_generic, init_type,
        lttng_append_context_index, field_data_create, EEXIST, ENOMEM]

/-- C6: on successful registration the length field's descriptor declares
an unsigned integer (`signedness = false`) of `unsigned int` width
(`sizeof(unsigned int) * CHAR_BIT` — the platform's native word width in
the spec's terms), base-10 display, no special encoding and not
byte-reversed. -/
theorem C6_length_descriptor (p : Platform) (ctx : lttng_ctx)
    (mode : LttngCsCtxModes) (o : AllocOracle) (h : Heap)
    (hs : (__lttng_add_callstack_generic p ctx mode o h).ret = 0) :
    ∃ f, (__lttng_add_callstack_generic p ctx mode o
        h).ctx.fields[ctx.fields.length]? = some f ∧
      f.ftype = .atype_integer
        { size := p.sizeof_unsigned_int * p.char_bit,
          alignment := p.alignof_unsigned_int * p.char_bit,
          signedness := false,
          reverse_byte_order := false,
          base := 10,
          encoding := .lttng_encode_none } := by
  obtain ⟨ho, hf⟩ := generic_ret_zero p ctx mode o h hs
  subst ho
  rw [generic_success_eq p ctx mode h hf]
  exact ⟨_, getElem?_append_self _ _ _, rfl⟩

/-- C6 witness: the kernel-mode registration on an empty context, on an
LP64 platform. -/
theorem C6_length_descriptor_witness :
    ∃ f, (__lttng_add_callstack_generic lp64 ⟨[]⟩ .CALLSTACK_KERNEL allOk
        emptyHeap).ctx.fields[(⟨[]⟩ : lttng_ctx).fields.length]? = some f ∧
      f.ftype = .atype_integer
        { size := lp64.sizeof_unsigned_int * lp64.char_bit,
          alignment := lp64.alignof_unsigned_int * lp64.char_bit,
          signedness := false,
          reverse_byte_order := false,
          base := 10,
          encoding := .lttng_encode_none } :=
  C6_length_descriptor lp64 ⟨[]⟩ .CALLSTACK_KERNEL allOk emptyHeap (by decide)

/-- C7: on successful registration the sequence field's descriptor is a
variable-length sequence whose `length_name` equals the generated
length-field name, and whose element type is `sequence_elem_type`: a raw
unsigned integer of `unsigned long` (native address) width with no
string/text encoding. -/
theorem C7_sequence_descriptor (p : Platform) (ctx : lttng_ctx)
    (mode : LttngCsCtxModes) (o : AllocOracle) (h : Heap)
    (hs : (__lttng_add_callstack_generic p ctx mode o h).ret = 0) :
    ∃ f, (__lttng_add_callstack_generic p ctx mode o
        h).ctx.fields[ctx.fields.length + 1]? = some f ∧
      f.ftype = .atype_sequence_nestable (lttng_cs_ctx_mode_length_name mode)
        (sequence_elem_type p) 0 ∧
      sequence_elem_type p = .atype_integer
        { size := p.sizeof_unsigned_long * p.char_bit,
          alignment := p.alignof_unsigned_long * p.char_bit,
          signedness := false,
          reverse_byte_order := false,
          base := 16,
          encoding := .lttng_encode_none } := by
  obtain ⟨ho, hf⟩ := generic_ret_zero p ctx mode o h hs
  subst ho
  rw [generic_success_eq p ctx mode h hf]
  exact ⟨_, getElem?_append_self1 _ _ _, rfl, rfl⟩

/-- C7 witness: the kernel-mode registration on an empty context, on an
LP64 platform. -/
theorem C7_sequence_descriptor_witness :
    ∃ f, (__lttng_add_callstack_generic lp64 ⟨[]⟩ .CALLSTACK_KERNEL allOk
        emptyHeap).ctx.fields[(⟨[]⟩ : lttng_ctx).fields.length + 1]? =
        some f ∧
      f.ftype = .atype_sequence_nestable
        (lttng_cs_ctx_mode_length_name .CALLSTACK_KERNEL)
        (sequence_elem_type lp64) 0 ∧
      sequence_elem_type lp64 = .atype_integer
        { size := lp64.sizeof_unsigned_long * lp64.char_bit,
          alignment := lp64.alignof_unsigned_long * lp64.char_bit,
          signedness := false,
          reverse_byte_order := false,
          base := 16,
          encoding := .lttng_encode_none } :=
  C7_sequence_descriptor lp64 ⟨[]⟩ .CALLSTACK_KERNEL allOk emptyHeap
    (by decide)

/-- C9: on successful registration exactly two slots were appended; the
length field occupies the earlier index (the old field count) and carries
the generated length-field name, while the sequence field sits at the
following index and carries the mode's context name. -/
theorem C9_reservation_order (p : Platform) (ctx : lttng_ctx)
    (mode : LttngCsCtxModes) (o : AllocOracle) (h : Heap)
    (hs : (__lttng_add_callstack_generic p ctx mode o h).ret = 0) :
    (__lttng_add_callstack_generic p ctx mode o h).ctx.fields.length =
      ctx.fields.length + 2 ∧
    ∃ lf sf,
      (__lttng_add_callstack_generic p ctx mode o
        h).ctx.fields[ctx.fields.length]? = some lf ∧
      (__lttng_add_callstack_generic p ctx mode o
        h).ctx.fields[ctx.fields.length + 1]? = some sf ∧
      lf.name = lttng_cs_ctx_mode_length_name mode ∧
      sf.name = lttng_cs_ctx_mode_name mode := by
  obtain ⟨ho, hf⟩ := generic_ret_zero p ctx mode o h hs
  subst ho
  rw [generic_success_eq p ctx mode h hf]
  refine ⟨by simp, _, _, getElem?_append_self _ _ _,
    getElem?_append_self1 _ _ _, rfl, rfl⟩

/-- C9 witness: the kernel-mode registration on an empty context. -/
theorem C9_reservation_order_witness :
    (__lttng_add_callstack_generic lp64 ⟨[]⟩ .CALLSTACK_KERNEL allOk
        emptyHeap).ctx.fields.length = (⟨[]⟩ : lttng_ctx).fields.length + 2 ∧
    ∃ lf sf,
      (__lttng_add_callstack_generic lp64 ⟨[]⟩ .CALLSTACK_KERNEL allOk
        emptyHeap).ctx.fields[(⟨[]⟩ : lttng_ctx).fields.length]? = some lf ∧
      (__lttng_add_callstack_generic lp64 ⟨[]⟩ .CALLSTACK_KERNEL allOk
        emptyHeap).ctx.fields[(⟨[]⟩ : lttng_ctx).fields.length + 1]? =
        some sf ∧
      lf.name = lttng_cs_ctx_mode_length_name .CALLSTACK_KERNEL ∧
      sf.name = lttng_cs_ctx_mode_name .CALLSTACK_KERNEL :=
  C9_reservation_order lp64 ⟨[]⟩ .CALLSTACK_KERNEL allOk emptyHeap
    (by decide)

/-- C8: after a successful registration both fields' private data is the
same shared `field_data`; only the sequence field carries a teardown
callback; running the pair's teardown callbacks releases that
`field_data` exactly once (its identity gains exactly one entry in the
free log and stops being live), so the shared data is neither freed twice
nor leaked; and when `alloc_percpu` fails inside `field_data_create` the
partially constructed `field_data` is likewise freed exactly once and NULL
is returned. -/
theorem C8_shared_fdata_ownership (p : Platform) (ctx : lttng_ctx)
    (mode : LttngCsCtxModes) (o : AllocOracle) (h : Heap)
    (hs : (__lttng_add_callstack_generic p ctx mode o h).ret = 0) :
    (∃ lf sf fd,
      (__lttng_add_callstack_generic p ctx mode o
        h).ctx.fields[ctx.fields.length]? = some lf ∧
      (__lttng_add_callstack_generic p ctx mode o
        h).ctx.fields[ctx.fields.length + 1]? = some sf ∧
      lf.priv = some fd ∧
      sf.priv = some fd ∧
      lf.destroy = none ∧
      sf.destroy = some .lttng_callstack_sequence_destroy_cb ∧
      (run_field_destroy (run_field_destroy
          (__lttng_add_callstack_generic p ctx mode o h).heap lf)
          sf).freeLog.count fd.id =
        (__lttng_add_callstack_generic p ctx mode o
          h).heap.freeLog.count fd.id + 1 ∧
      fd.id ∉ (run_field_destroy (run_field_destroy
          (__lttng_add_callstack_generic p ctx mode o h).heap lf)
          sf).live) ∧
    (∀ (m : LttngCsCtxModes) (hh : Heap),
      (field_data_create m true false hh).1 = none ∧
      (field_data_create m true false hh).2.freeLog =
        hh.freeLog ++ [hh.nextId] ∧
      hh.nextId ∉ (field_data_create m true false hh).2.live) := by
  obtain ⟨ho, hf⟩ := generic_ret_zero p ctx mode o h hs
  subst ho
  rw [generic_success_eq p ctx mode h hf]
  constructor
  · refine ⟨_, _, created_fdata mode h, getElem?_append_self _ _ _,
      getElem?_append_self1 _ _ _, rfl, rfl, rfl, rfl, ?_, ?_⟩
    · simp [run_field_destroy, make_length_field, make_sequence_field,
        lttng_callstack_sequence_destroy, field_data_free, free_percpu,
        Heap.free, success_heap, created_fdata, List.count_append]
    · simp [run_field_destroy, make_length_field, make_sequence_field,
        lttng_callstack_sequence_destroy, field_data_free, free_percpu,
        Heap.free, success_heap, created_fdata, List.mem_filter]
  · intro m hh
    refine ⟨rfl, ?_, ?_⟩
    · simp [field_data_create, field_data_free, free_percpu, Heap.free,
        Heap.alloc]
    · simp [field_data_create, field_data_free, free_percpu, Heap.free,
        Heap.alloc, List.mem_filter]

/-- C8 witness: the kernel-mode registration on an empty context and empty
heap. -/
theorem C8_shared_fdata_ownership_witness :
    (∃ lf sf fd,
      (__lttng_add_callstack_generic lp64 ⟨[]⟩ .CALLSTACK_KERNEL allOk
        emptyHeap).ctx.fields[(⟨[]⟩ : lttng_ctx).fields.length]? = some lf ∧
      (__lttng_add_callstack_generic lp64 ⟨[]⟩ .CALLSTACK_KERNEL allOk
        emptyHeap).ctx.fields[(⟨[]⟩ : lttng_ctx).fields.length + 1]? =
        some sf ∧
      lf.priv = some fd ∧
      sf.priv = some fd ∧
      lf.destroy = none ∧
      sf.destroy = some .lttng_callstack_sequence_destroy_cb ∧
      (run_field_destroy (run_field_destroy
          (__lttng_add_callstack_generic lp64 ⟨[]⟩ .CALLSTACK_KERNEL allOk
            emptyHeap).heap lf) sf).freeLog.count fd.id =
        (__lttng_add_callstack_generic lp64 ⟨[]⟩ .CALLSTACK_KERNEL allOk
          emptyHeap).heap.freeLog.count fd.id + 1 ∧
      fd.id ∉ (run_field_destroy (run_field_destroy
          (__lttng_add_callstack_generic lp64 ⟨[]⟩ .CALLSTACK_KERNEL allOk
            emptyHeap).heap lf) sf).live) ∧
    (∀ (m : LttngCsCtxModes) (hh : Heap),
      (field_data_create m true false hh).1 = none ∧
      (field_data_create m true false hh).2.freeLog =
        hh.freeLog ++ [hh.nextId] ∧
      hh.nextId ∉ (field_data_create m true false hh).2.live) :=
  C8_shared_fdata_ownership lp64 ⟨[]⟩ .CALLSTACK_KERNEL allOk emptyHeap
    (by decide)

/-- C10: `field_data_free` applied to a NULL pointer leaves the heap
untouched, so invoking the sequence teardown callback
`lttng_callstack_sequence_destroy` on a field whose private data is NULL
is safe and changes nothing. -/
theorem C10_null_free_noop (h : Heap) (f : lttng_ctx_field)
    (hp : f.priv = none) :
    field_data_free none h = h ∧
    lttng_callstack_sequence_destroy f h = h := by
  exact ⟨rfl, by simp [lttng_callstack_sequence_destroy, hp, field_data_free]⟩

/-- C10 witness: the teardown callback on a zero-initialized field and the
empty heap. -/
theorem C10_null_free_noop_witness :
    field_data_free none emptyHeap = emptyHeap ∧
    lttng_callstack_sequence_destroy blank_ctx_field emptyHeap = emptyHeap :=
  C10_null_free_noop emptyHeap blank_ctx_field rfl
